import Mathlib

/-!
Shallow embedding of `src/PSoC_Creator/Carlab.cydsn/position.c` (ultrasonic
TDOA positioning).  C `float`/`double` arithmetic is idealised as real
arithmetic; the 32-bit unsigned timer counter is modelled as `ℕ` with explicit
reduction modulo `2^32`, and the C cast `(int32)` as an explicit signed
reinterpretation into `ℤ`.  The interrupt handler `positioningHandler` becomes
a pure state transformer over the published state `{x, y, fxy, new_data}`,
taking the four captured timestamps as input.
-/

namespace UltraPos

/-! Constants, from the `#define` block of position.c. -/

/-- X: distance between first and second transmitters in feet. -/
noncomputable def X : ℝ := 23.5

/-- Y: distance between second and third transmitters in feet. -/
noncomputable def Y : ℝ := 33.75

/-- Z: fixed vertical offset in feet. -/
noncomputable def Z : ℝ := 7.583

/-- CLOCK_FREQ in Hz (used both for tick arithmetic and scaling). -/
def CLOCK_FREQ : ℕ := 1000000

/-- WAVE_SPEED in ft/s. -/
noncomputable def WAVE_SPEED : ℝ := 1135.0

/-- TX_SPACING in ms. -/
def TX_SPACING : ℕ := 100

/-- DEL_FACTOR: damping factor of the update step. -/
noncomputable def DEL_FACTOR : ℝ := 0.1

/-- MAX_ERROR: acceptance ceiling, ft^2. -/
noncomputable def MAX_ERROR : ℝ := 0.5

/-- ERROR_THRESHOLD: convergence threshold, ft^2. -/
noncomputable def ERROR_THRESHOLD : ℝ := 0.01

/-- MAX_ITERATIONS: hard cap on solver iterations. -/
def MAX_ITERATIONS : ℕ := 100

/-- ULONG_MAX for the 32-bit target (maximum value of `unsigned long`). -/
def ULONG_MAX : ℕ := 4294967295

/-! Machine-integer helpers: uint32 values are naturals reduced mod 2^32 =
4294967296; the C cast `(int32)u` reinterprets the bit pattern as a signed
two's-complement value. -/

/-- toInt32 u: the signed value of the 32-bit pattern `u` (two's complement). -/
def toInt32 (u : ℕ) : ℤ :=
  if u < 2147483648 then (u : ℤ) else (u : ℤ) - 4294967296

/-- tickDelta t0 ti: the C expression `(int32)(time[0] - time[i])`, where the
subtraction is uint32 arithmetic (wrapping mod 2^32). -/
def tickDelta (t0 ti : ℕ) : ℤ :=
  toInt32 ((t0 % 4294967296 + (4294967296 - ti % 4294967296)) % 4294967296)

/-- interTicks: the C integer expression `CLOCK_FREQ/1000*TX_SPACING`
(inter-pulse spacing in ticks). -/
def interTicks : ℕ := CLOCK_FREQ / 1000 * TX_SPACING

/-- diffTicks t0 ti i: the C integer expression
`(int32)(time[0] - time[i]) - i*(CLOCK_FREQ/1000*TX_SPACING)`.
Under the validity check this value fits in int32, so the (otherwise
undefined-on-overflow) C subtraction is modelled as exact integer
subtraction. -/
def diffTicks (t0 ti i : ℕ) : ℤ :=
  tickDelta t0 ti - (i : ℤ) * (interTicks : ℤ)

/-- diff t0 ti i: the value stored into `diff[i]` at lines 140-142:
the tick difference scaled by `WAVE_SPEED/CLOCK_FREQ`, in feet. -/
noncomputable def diff (t0 ti i : ℕ) : ℝ :=
  ((diffTicks t0 ti i : ℤ) : ℝ) * (WAVE_SPEED / (CLOCK_FREQ : ℝ))

/-! Sample acquisition and validity check (lines 123-136). -/

/-- timeReject t: the per-timestamp rejection test at line 128:
`time[i] == 0u || time[i] < ULONG_MAX - CLOCK_FREQ`. -/
def timeReject (t : ℕ) : Bool :=
  t == 0 || decide (t < ULONG_MAX - CLOCK_FREQ)

/-- validReject time: the acquisition loop aborts the cycle when any of the
four captured timestamps is rejected (early return at line 134, unrolled). -/
def validReject (time : Fin 4 → ℕ) : Bool :=
  timeReject (time 0) || timeReject (time 1) || timeReject (time 2) ||
    timeReject (time 3)

/-- fabsf, the bespoke absolute-value helper at lines 105-110. -/
noncomputable def fabsf (num : ℝ) : ℝ :=
  if num ≥ 0.0 then num else -num

/-- plausibilityReject time: the difference-computation loop aborts the cycle
when `fabsf(diff[i]) > X + Y` for some i in 1..3 (early return at line 153,
unrolled). -/
noncomputable def plausibilityReject (time : Fin 4 → ℕ) : Prop :=
  fabsf (diff (time 0) (time 1) 1) > X + Y ∨
  fabsf (diff (time 0) (time 2) 2) > X + Y ∨
  fabsf (diff (time 0) (time 3) 3) > X + Y

noncomputable instance plausDec (time : Fin 4 → ℕ) :
    Decidable (plausibilityReject time) := by
  unfold plausibilityReject; infer_instance

/-! Nonlinear solver (lines 157-216).  The per-iteration quantities are
functions of the three measured differences d1 d2 d3 and the current
hypothesis (cx, cy) (the local variables `new_x`, `new_y`). -/

/-- dist0: line 168, distance from the hypothesis to transmitter 0. -/
noncomputable def dist0 (cx cy : ℝ) : ℝ :=
  Real.sqrt ((cx + X/2)*(cx + X/2) + (cy + Y/2)*(cy + Y/2) + Z*Z)

/-- dist1: line 169, distance from the hypothesis to transmitter 1. -/
noncomputable def dist1 (cx cy : ℝ) : ℝ :=
  Real.sqrt ((cx - X/2)*(cx - X/2) + (cy + Y/2)*(cy + Y/2) + Z*Z)

/-- dist2: line 170, distance from the hypothesis to transmitter 2. -/
noncomputable def dist2 (cx cy : ℝ) : ℝ :=
  Real.sqrt ((cx - X/2)*(cx - X/2) + (cy - Y/2)*(cy - Y/2) + Z*Z)

/-- dist3: line 171, distance from the hypothesis to transmitter 3. -/
noncomputable def dist3 (cx cy : ℝ) : ℝ :=
  Real.sqrt ((cx + X/2)*(cx + X/2) + (cy - Y/2)*(cy - Y/2) + Z*Z)

/-- error1: line 175, `error[1] = (dist[1]-dist[0]) - diff[1]`. -/
noncomputable def error1 (d1 cx cy : ℝ) : ℝ := (dist1 cx cy - dist0 cx cy) - d1

/-- error2: line 175, `error[2] = (dist[2]-dist[0]) - diff[2]`. -/
noncomputable def error2 (d2 cx cy : ℝ) : ℝ := (dist2 cx cy - dist0 cx cy) - d2

/-- error3: line 175, `error[3] = (dist[3]-dist[0]) - diff[3]`. -/
noncomputable def error3 (d3 cx cy : ℝ) : ℝ := (dist3 cx cy - dist0 cx cy) - d3

/-- fxyAt: lines 178-180, `new_fxy` = sum of the squares of the errors. -/
noncomputable def fxyAt (d1 d2 d3 cx cy : ℝ) : ℝ :=
  error1 d1 cx cy * error1 d1 cx cy + error2 d2 cx cy * error2 d2 cx cy +
    error3 d3 cx cy * error3 d3 cx cy

/-- dfxAt: lines 183-185, the partial derivative `dfx` (terms in source
order: error[2], then error[3], then error[1]). -/
noncomputable def dfxAt (d1 d2 d3 cx cy : ℝ) : ℝ :=
  2*error2 d2 cx cy * (((cx - X/2)/dist2 cx cy) - (cx + X/2)/dist0 cx cy) +
  2*error3 d3 cx cy * (((cx + X/2)/dist3 cx cy) - (cx + X/2)/dist0 cx cy) +
  2*error1 d1 cx cy * (((cx - X/2)/dist1 cx cy) - (cx + X/2)/dist0 cx cy)

/-- dfyAt: lines 187-189, the partial derivative `dfy`. -/
noncomputable def dfyAt (d1 d2 d3 cx cy : ℝ) : ℝ :=
  2*error2 d2 cx cy * (((cy - Y/2)/dist2 cx cy) - (cy + Y/2)/dist0 cx cy) +
  2*error3 d3 cx cy * (((cy - Y/2)/dist3 cx cy) - (cy + Y/2)/dist0 cx cy) +
  2*error1 d1 cx cy * (((cy + Y/2)/dist1 cx cy) - (cy + Y/2)/dist0 cx cy)

/-- gmsAt: line 192, `gradient_magnitude_squared = dfx*dfx + dfy*dfy`. -/
noncomputable def gmsAt (d1 d2 d3 cx cy : ℝ) : ℝ :=
  dfxAt d1 d2 d3 cx cy * dfxAt d1 d2 d3 cx cy +
    dfyAt d1 d2 d3 cx cy * dfyAt d1 d2 d3 cx cy

/-- stepX: line 197, the updated `new_x` after
`new_x -= DEL_FACTOR * new_fxy * dfx / gradient_magnitude_squared`. -/
noncomputable def stepX (d1 d2 d3 cx cy : ℝ) : ℝ :=
  cx - DEL_FACTOR * fxyAt d1 d2 d3 cx cy * dfxAt d1 d2 d3 cx cy /
    gmsAt d1 d2 d3 cx cy

/-- stepY: line 198, the updated `new_y`. -/
noncomputable def stepY (d1 d2 d3 cx cy : ℝ) : ℝ :=
  cy - DEL_FACTOR * fxyAt d1 d2 d3 cx cy * dfyAt d1 d2 d3 cx cy /
    gmsAt d1 d2 d3 cx cy

/-- SolveOut: the solver's result at loop exit: the local variables
`new_x`, `new_y`, `new_fxy` and the iteration counter `iters`. -/
structure SolveOut where
  x : ℝ
  y : ℝ
  f : ℝ
  iters : ℕ

/-- solverLoop: the do-while loop at lines 161-216.  `fuel` is a structural
recursion bound; the loop itself repeats only while
`fabsf(new_fxy) > ERROR_THRESHOLD && iters < MAX_ITERATIONS`, so starting
from `fuel = MAX_ITERATIONS`, `iters = 0` the fuel never runs out (the
`fuel = 0` fallback returns the same exit value as the loop condition
failing).  Each body execution computes `new_fxy` and the gradient at the
current hypothesis, breaks before updating when the squared gradient
magnitude is exactly zero, and otherwise applies the update step and
increments `iters`. -/
noncomputable def solverLoop (d1 d2 d3 : ℝ) : ℕ → ℕ → ℝ → ℝ → SolveOut
  | 0, iters, cx, cy =>
    if gmsAt d1 d2 d3 cx cy = 0 then
      ⟨cx, cy, fxyAt d1 d2 d3 cx cy, iters⟩
    else
      ⟨stepX d1 d2 d3 cx cy, stepY d1 d2 d3 cx cy,
        fxyAt d1 d2 d3 cx cy, iters + 1⟩
  | fuel + 1, iters, cx, cy =>
    if gmsAt d1 d2 d3 cx cy = 0 then
      ⟨cx, cy, fxyAt d1 d2 d3 cx cy, iters⟩
    else
      if fabsf (fxyAt d1 d2 d3 cx cy) > ERROR_THRESHOLD ∧
          iters + 1 < MAX_ITERATIONS then
        solverLoop d1 d2 d3 fuel (iters + 1)
          (stepX d1 d2 d3 cx cy) (stepY d1 d2 d3 cx cy)
      else
        ⟨stepX d1 d2 d3 cx cy, stepY d1 d2 d3 cx cy,
          fxyAt d1 d2 d3 cx cy, iters + 1⟩

/-- solverRun: the whole solver invocation: `iters = 0` at line 160 and the
loop entered with the seed hypothesis (lines 158-159 set `new_x = x`,
`new_y = y`; the seed is passed in by the handler). -/
noncomputable def solverRun (d1 d2 d3 sx sy : ℝ) : SolveOut :=
  solverLoop d1 d2 d3 MAX_ITERATIONS 0 sx sy

/-! Published state and the interrupt handler. -/

/-- PState: the file-scope globals `x`, `y`, `fxy`, `new_data`
(lines 54-56).  `new_data` keeps the C uint8 values 0/1. -/
structure PState where
  x : ℝ
  y : ℝ
  fxy : ℝ
  new_data : ℕ

/-- acceptStep: the acceptance decision at lines 218-223: commit the solver
result and set the flag only when `fabsf(new_fxy) < MAX_ERROR`. -/
noncomputable def acceptStep (st : PState) (r : SolveOut) : PState :=
  if fabsf r.f < MAX_ERROR then ⟨r.x, r.y, r.f, 1⟩ else st

/-- positioningHandler: the interrupt handler (lines 116-227) as a state
transformer: abort (returning the state unchanged) on the validity check or
the plausibility check, otherwise run the solver seeded from the published
estimate and apply the acceptance decision.  `SHOW_GARBAGE` is not defined
in the source, so rejection has no side effects. -/
noncomputable def positioningHandler (st : PState) (time : Fin 4 → ℕ) :
    PState :=
  if validReject time then st
  else if plausibilityReject time then st
  else acceptStep st
    (solverRun (diff (time 0) (time 1) 1) (diff (time 0) (time 2) 2)
      (diff (time 0) (time 3) 3) st.x st.y)

/-- position_data_available (lines 81-87): returns the flag and clears it.
The critical section only matters for concurrency, which the sequential
model does not exhibit. -/
def position_data_available (st : PState) : ℕ × PState :=
  (st.new_data, { st with new_data := 0 })

/-- position_x (lines 94-96). -/
def position_x (st : PState) : ℝ := st.x

/-- position_y (lines 97-99). -/
def position_y (st : PState) : ℝ := st.y

/-- error (lines 101-103). -/
def error (st : PState) : ℝ := st.fxy

/-! A division-guarded variant of the solver loop, used to state that the
update step never divides by zero: `safeDiv` refuses a zero denominator, and
the guarded loop is proved to always succeed with the same result. -/

/-- safeDiv a b: division that fails (returns none) on a zero denominator. -/
noncomputable def safeDiv (a b : ℝ) : Option ℝ :=
  if b = 0 then none else some (a / b)

/-- solverLoopSafe: `solverLoop` with both update-step divisions routed
through `safeDiv`; any division by zero would surface as `none`. -/
noncomputable def solverLoopSafe (d1 d2 d3 : ℝ) :
    ℕ → ℕ → ℝ → ℝ → Option SolveOut
  | 0, iters, cx, cy =>
    if gmsAt d1 d2 d3 cx cy = 0 then
      some ⟨cx, cy, fxyAt d1 d2 d3 cx cy, iters⟩
    else
      match safeDiv (DEL_FACTOR * fxyAt d1 d2 d3 cx cy * dfxAt d1 d2 d3 cx cy)
              (gmsAt d1 d2 d3 cx cy),
            safeDiv (DEL_FACTOR * fxyAt d1 d2 d3 cx cy * dfyAt d1 d2 d3 cx cy)
              (gmsAt d1 d2 d3 cx cy) with
      | some qx, some qy =>
          some ⟨cx - qx, cy - qy, fxyAt d1 d2 d3 cx cy, iters + 1⟩
      | _, _ => none
  | fuel + 1, iters, cx, cy =>
    if gmsAt d1 d2 d3 cx cy = 0 then
      some ⟨cx, cy, fxyAt d1 d2 d3 cx cy, iters⟩
    else
      match safeDiv (DEL_FACTOR * fxyAt d1 d2 d3 cx cy * dfxAt d1 d2 d3 cx cy)
              (gmsAt d1 d2 d3 cx cy),
            safeDiv (DEL_FACTOR * fxyAt d1 d2 d3 cx cy * dfyAt d1 d2 d3 cx cy)
              (gmsAt d1 d2 d3 cx cy) with
      | some qx, some qy =>
          if fabsf (fxyAt d1 d2 d3 cx cy) > ERROR_THRESHOLD ∧
              iters + 1 < MAX_ITERATIONS then
            solverLoopSafe d1 d2 d3 fuel (iters + 1) (cx - qx) (cy - qy)
          else
            some ⟨cx - qx, cy - qy, fxyAt d1 d2 d3 cx cy, iters + 1⟩
      | _, _ => none

/-! Concrete test inputs used by witnesses. -/

/-- wtimes: a quadruple of fresh captures at exactly the expected inter-pulse
spacing (100000 ticks apart, all within one second of the counter maximum). -/
def wtimes : Fin 4 → ℕ
  | 0 => 4294967295
  | 1 => 4294867295
  | 2 => 4294767295
  | 3 => 4294667295

/-- wstale: a quadruple of nonzero but stale captures. -/
def wstale : Fin 4 → ℕ := fun _ => 1

/-- wzero: a quadruple of sentinel-zero captures. -/
def wzero : Fin 4 → ℕ := fun _ => 0

end UltraPos

namespace UltraPos

/-! Basic lemmas about the embedded arithmetic helpers. -/

/-- fabsf computes the absolute value. -/
theorem fabsf_eq_abs (x : ℝ) : fabsf x = |x| := by
  unfold fabsf
  split
  · next h =>
      norm_num at h
      exact (abs_of_nonneg h).symm
  · next h =>
      norm_num at h
      exact (abs_of_neg h).symm

/-- fabsf of zero. -/
theorem fabsf_zero : fabsf 0 = 0 := by
  rw [fabsf_eq_abs]; exact abs_zero

/-- tickDelta recovers the exact signed difference whenever both timestamps
lie in the band accepted by the validity check. -/
theorem tickDelta_exact (t0 ti : ℕ)
    (h0 : ULONG_MAX - CLOCK_FREQ ≤ t0) (h0m : t0 ≤ ULONG_MAX)
    (hi : ULONG_MAX - CLOCK_FREQ ≤ ti) (him : ti ≤ ULONG_MAX) :
    tickDelta t0 ti = (t0 : ℤ) - (ti : ℤ) := by
  simp only [ULONG_MAX, CLOCK_FREQ] at h0 h0m hi him
  unfold tickDelta toInt32
  rw [Nat.mod_eq_of_lt (by omega : t0 < 4294967296),
    Nat.mod_eq_of_lt (by omega : ti < 4294967296)]
  by_cases hc : ti ≤ t0
  · rw [(by omega : (t0 + (4294967296 - ti)) % 4294967296 = t0 - ti)]
    rw [if_pos (by omega : t0 - ti < 2147483648)]
    omega
  · rw [(by omega :
      (t0 + (4294967296 - ti)) % 4294967296 = 4294967296 - (ti - t0))]
    rw [if_neg (by omega : ¬ 4294967296 - (ti - t0) < 2147483648)]
    omega

/-- diffTicks equals the exact mathematical tick difference minus the
inter-pulse offset, under the validity-check bounds. -/
theorem diffTicks_exact (t0 ti i : ℕ)
    (h0 : ULONG_MAX - CLOCK_FREQ ≤ t0) (h0m : t0 ≤ ULONG_MAX)
    (hi : ULONG_MAX - CLOCK_FREQ ≤ ti) (him : ti ≤ ULONG_MAX) :
    diffTicks t0 ti i = (t0 : ℤ) - (ti : ℤ) - (i : ℤ) * (interTicks : ℤ) := by
  unfold diffTicks
  rw [tickDelta_exact t0 ti h0 h0m hi him]

/-- The validity check rejects a timestamp exactly when it is zero or below
`ULONG_MAX - CLOCK_FREQ`. -/
theorem timeReject_iff (t : ℕ) :
    timeReject t = true ↔ t = 0 ∨ t < ULONG_MAX - CLOCK_FREQ := by
  unfold timeReject
  simp [Bool.or_eq_true, beq_iff_eq, decide_eq_true_eq]

/-- A timestamp passing the validity check lies in the accepted band. -/
theorem timeReject_false (t : ℕ) (h : timeReject t = false) :
    t ≠ 0 ∧ ULONG_MAX - CLOCK_FREQ ≤ t := by
  unfold timeReject at h
  simp [Bool.or_eq_false_iff, beq_eq_false_iff_ne, decide_eq_false_iff_not] at h
  refine ⟨h.1, ?_⟩
  simp only [ULONG_MAX, CLOCK_FREQ] at h ⊢
  omega

/-! Evaluation of the solver quantities at the origin hypothesis, where the
four corner distances coincide by symmetry. -/

theorem dist1_origin : dist1 0 0 = dist0 0 0 := by
  unfold dist0 dist1
  congr 1
  ring

theorem dist2_origin : dist2 0 0 = dist0 0 0 := by
  unfold dist0 dist2
  congr 1
  ring

theorem dist3_origin : dist3 0 0 = dist0 0 0 := by
  unfold dist0 dist3
  congr 1
  ring

theorem dist0_origin_pos : 0 < dist0 0 0 := by
  unfold dist0
  apply Real.sqrt_pos.mpr
  norm_num [X, Y, Z]

theorem error1_origin (d1 : ℝ) : error1 d1 0 0 = -d1 := by
  unfold error1
  rw [dist1_origin]
  ring

theorem error2_origin (d2 : ℝ) : error2 d2 0 0 = -d2 := by
  unfold error2
  rw [dist2_origin]
  ring

theorem error3_origin (d3 : ℝ) : error3 d3 0 0 = -d3 := by
  unfold error3
  rw [dist3_origin]
  ring

theorem fxyAt_origin (d1 d2 d3 : ℝ) :
    fxyAt d1 d2 d3 0 0 = d1*d1 + d2*d2 + d3*d3 := by
  unfold fxyAt
  rw [error1_origin, error2_origin, error3_origin]
  ring

theorem dfxAt_origin (d1 d2 d3 : ℝ) :
    dfxAt d1 d2 d3 0 0 = (2*(d1 + d2)) * (X / dist0 0 0) := by
  unfold dfxAt
  rw [dist1_origin, dist2_origin, dist3_origin,
    error1_origin, error2_origin, error3_origin]
  ring

theorem dfyAt_origin (d1 d2 d3 : ℝ) :
    dfyAt d1 d2 d3 0 0 = (2*(d2 + d3)) * (Y / dist0 0 0) := by
  unfold dfyAt
  rw [dist1_origin, dist2_origin, dist3_origin,
    error1_origin, error2_origin, error3_origin]
  ring

theorem gmsAt_origin_zero : gmsAt 0 0 0 0 0 = 0 := by
  unfold gmsAt
  rw [dfxAt_origin, dfyAt_origin]
  ring

theorem gmsAt_c10_ne : gmsAt 0 0 (1/20) 0 0 ≠ 0 := by
  unfold gmsAt
  rw [dfxAt_origin, dfyAt_origin]
  have hY : (0:ℝ) < Y := by norm_num [Y]
  have hD := dist0_origin_pos
  have hdfy : (0:ℝ) < (2*((0:ℝ) + 1/20)) * (Y / dist0 0 0) := by
    apply mul_pos (by norm_num) (div_pos hY hD)
  have hdfx : (2*((0:ℝ) + 0)) * (X / dist0 0 0) = 0 := by ring
  rw [hdfx]
  nlinarith [hdfy]

theorem fxyAt_c10_small : fabsf (fxyAt 0 0 (1/20) 0 0) ≤ ERROR_THRESHOLD := by
  rw [fxyAt_origin, fabsf_eq_abs, abs_of_nonneg (by norm_num)]
  norm_num [ERROR_THRESHOLD]

/-! Evaluation of the measured differences on the witness capture set. -/

theorem diff_wtimes1 : diff (wtimes 0) (wtimes 1) 1 = 0 := by
  show diff 4294967295 4294867295 1 = 0
  unfold diff
  rw [(by decide : diffTicks 4294967295 4294867295 1 = 0)]
  norm_num

theorem diff_wtimes2 : diff (wtimes 0) (wtimes 2) 2 = 0 := by
  show diff 4294967295 4294767295 2 = 0
  unfold diff
  rw [(by decide : diffTicks 4294967295 4294767295 2 = 0)]
  norm_num

theorem diff_wtimes3 : diff (wtimes 0) (wtimes 3) 3 = 0 := by
  show diff 4294967295 4294667295 3 = 0
  unfold diff
  rw [(by decide : diffTicks 4294967295 4294667295 3 = 0)]
  norm_num

theorem wtimes_plausible : ¬ plausibilityReject wtimes := by
  unfold plausibilityReject
  rw [diff_wtimes1, diff_wtimes2, diff_wtimes3, fabsf_zero]
  norm_num [X, Y]

/-! Unfolding lemmas for the solver loop. -/

/-- With a zero gradient the loop breaks immediately, whatever the fuel:
no update step is applied and `iters` is not incremented. -/
theorem solverLoop_gms0 (d1 d2 d3 : ℝ) (fuel iters : ℕ) (cx cy : ℝ)
    (h : gmsAt d1 d2 d3 cx cy = 0) :
    solverLoop d1 d2 d3 fuel iters cx cy =
      ⟨cx, cy, fxyAt d1 d2 d3 cx cy, iters⟩ := by
  cases fuel <;> (unfold solverLoop; rw [if_pos h])

/-- With a nonzero gradient and a failing while-condition, the body runs
once: one update step, one counter increment, then exit. -/
theorem solverLoop_succ_stop (d1 d2 d3 : ℝ) (fuel iters : ℕ) (cx cy : ℝ)
    (h : gmsAt d1 d2 d3 cx cy ≠ 0)
    (hc : ¬ (fabsf (fxyAt d1 d2 d3 cx cy) > ERROR_THRESHOLD ∧
      iters + 1 < MAX_ITERATIONS)) :
    solverLoop d1 d2 d3 (fuel + 1) iters cx cy =
      ⟨stepX d1 d2 d3 cx cy, stepY d1 d2 d3 cx cy,
        fxyAt d1 d2 d3 cx cy, iters + 1⟩ := by
  unfold solverLoop
  rw [if_neg h, if_neg hc]

/-- With a nonzero gradient and a passing while-condition, the loop repeats
at the updated hypothesis. -/
theorem solverLoop_succ_cont (d1 d2 d3 : ℝ) (fuel iters : ℕ) (cx cy : ℝ)
    (h : gmsAt d1 d2 d3 cx cy ≠ 0)
    (hg : fabsf (fxyAt d1 d2 d3 cx cy) > ERROR_THRESHOLD)
    (hi : iters + 1 < MAX_ITERATIONS) :
    solverLoop d1 d2 d3 (fuel + 1) iters cx cy =
      solverLoop d1 d2 d3 fuel (iters + 1)
        (stepX d1 d2 d3 cx cy) (stepY d1 d2 d3 cx cy) := by
  conv_lhs => unfold solverLoop
  rw [if_neg h, if_pos ⟨hg, hi⟩]

/-- safeDiv succeeds on any nonzero denominator. -/
theorem safeDiv_of_ne (a b : ℝ) (h : b ≠ 0) : safeDiv a b = some (a / b) := by
  unfold safeDiv
  rw [if_neg h]

/-- The invariant behind the iteration cap: entered with
`iters + fuel = MAX_ITERATIONS` and `iters < MAX_ITERATIONS` (as the handler
does with `fuel = MAX_ITERATIONS`, `iters = 0`), the loop exits with at most
`MAX_ITERATIONS` counted iterations, and only because the cost reached the
threshold, the cap was hit, or the gradient vanished at the exit point. -/
theorem solverLoop_exit (d1 d2 d3 : ℝ) (fuel : ℕ) :
    ∀ (iters : ℕ) (cx cy : ℝ), iters + fuel = MAX_ITERATIONS →
    iters < MAX_ITERATIONS →
    (solverLoop d1 d2 d3 fuel iters cx cy).iters ≤ MAX_ITERATIONS ∧
    (fabsf (solverLoop d1 d2 d3 fuel iters cx cy).f ≤ ERROR_THRESHOLD ∨
     (solverLoop d1 d2 d3 fuel iters cx cy).iters = MAX_ITERATIONS ∨
     gmsAt d1 d2 d3 (solverLoop d1 d2 d3 fuel iters cx cy).x
       (solverLoop d1 d2 d3 fuel iters cx cy).y = 0) := by
  induction fuel with
  | zero =>
      intro iters cx cy hsum hlt
      omega
  | succ fuel ih =>
      intro iters cx cy hsum hlt
      by_cases hg : gmsAt d1 d2 d3 cx cy = 0
      · rw [solverLoop_gms0 d1 d2 d3 _ iters cx cy hg]
        exact ⟨le_of_lt hlt, Or.inr (Or.inr hg)⟩
      · by_cases hc : fabsf (fxyAt d1 d2 d3 cx cy) > ERROR_THRESHOLD ∧
            iters + 1 < MAX_ITERATIONS
        · rw [solverLoop_succ_cont d1 d2 d3 fuel iters cx cy hg hc.1 hc.2]
          exact ih (iters + 1) _ _ (by omega) hc.2
        · rw [solverLoop_succ_stop d1 d2 d3 fuel iters cx cy hg hc]
          push_neg at hc
          dsimp only
          refine ⟨by omega, ?_⟩
          by_cases hthr : fabsf (fxyAt d1 d2 d3 cx cy) ≤ ERROR_THRESHOLD
          · exact Or.inl hthr
          · have := hc (lt_of_not_le hthr)
            exact Or.inr (Or.inl (by omega))

/-- The guarded loop never fails and agrees with the plain loop: every
division performed by the update step has a nonzero denominator. -/
theorem solverLoopSafe_eq (d1 d2 d3 : ℝ) (fuel : ℕ) :
    ∀ (iters : ℕ) (cx cy : ℝ),
    solverLoopSafe d1 d2 d3 fuel iters cx cy =
      some (solverLoop d1 d2 d3 fuel iters cx cy) := by
  induction fuel with
  | zero =>
      intro iters cx cy
      unfold solverLoopSafe solverLoop
      by_cases hg : gmsAt d1 d2 d3 cx cy = 0
      · rw [if_pos hg, if_pos hg]
      · rw [if_neg hg, if_neg hg,
          safeDiv_of_ne _ _ hg, safeDiv_of_ne _ _ hg]
        rfl
  | succ fuel ih =>
      intro iters cx cy
      unfold solverLoopSafe solverLoop
      by_cases hg : gmsAt d1 d2 d3 cx cy = 0
      · rw [if_pos hg, if_pos hg]
      · rw [if_neg hg, if_neg hg,
          safeDiv_of_ne _ _ hg, safeDiv_of_ne _ _ hg]
        by_cases hc : fabsf (fxyAt d1 d2 d3 cx cy) > ERROR_THRESHOLD ∧
            iters + 1 < MAX_ITERATIONS
        · simp only [if_pos hc]
          exact ih (iters + 1) _ _
        · simp only [if_neg hc]
          rfl

/-! The claims. -/

/-- C1 (counterexample): the claim says published state is updated and the
flag set whenever the final cost is at or below the acceptance ceiling, but
at final cost exactly MAX_ERROR (which does not exceed the ceiling) the
acceptance test `fabsf(new_fxy) < MAX_ERROR` at line 218 is false, so the
published state is left unchanged and the flag stays clear. -/
theorem claim_C1_counterexample :
    (1/2 : ℝ) ≤ MAX_ERROR ∧
    acceptStep ⟨0, 0, 0, 0⟩ ⟨3, 4, 1/2, 1⟩ = ⟨0, 0, 0, 0⟩ ∧
    (acceptStep ⟨0, 0, 0, 0⟩ ⟨3, 4, 1/2, 1⟩).new_data = 0 := by
  have hf : ¬ fabsf ((⟨3, 4, 1/2, 1⟩ : SolveOut).f) < MAX_ERROR := by
    dsimp only
    rw [fabsf_eq_abs, abs_of_nonneg (by norm_num)]
    norm_num [MAX_ERROR]
  refine ⟨by norm_num [MAX_ERROR], ?_, ?_⟩
  · unfold acceptStep
    rw [if_neg hf]
  · unfold acceptStep
    rw [if_neg hf]

/-- C1 (amended): after a cycle passing the validity and plausibility
checks, the published state is updated to the solver's result with the flag
set when the final cost is strictly below MAX_ERROR, and is unchanged
otherwise. -/
theorem claim_C1_acceptance (st : PState) (time : Fin 4 → ℕ) (r : SolveOut)
    (h1 : validReject time = false) (h2 : ¬ plausibilityReject time)
    (hr : r = solverRun (diff (time 0) (time 1) 1) (diff (time 0) (time 2) 2)
      (diff (time 0) (time 3) 3) st.x st.y) :
    (fabsf r.f < MAX_ERROR → positioningHandler st time = ⟨r.x, r.y, r.f, 1⟩) ∧
    (¬ fabsf r.f < MAX_ERROR → positioningHandler st time = st) := by
  unfold positioningHandler
  rw [if_neg (by simp [h1]), if_neg h2, ← hr]
  unfold acceptStep
  constructor
  · intro h
    rw [if_pos h]
  · intro h
    rw [if_neg h]

/-- C1 witness: on a fresh, exactly-spaced capture set the handler from the
zero state follows the acceptance dichotomy of claim_C1_acceptance. -/
theorem claim_C1_witness :
    validReject wtimes = false ∧ ¬ plausibilityReject wtimes ∧
    ((fabsf (solverRun (diff (wtimes 0) (wtimes 1) 1)
        (diff (wtimes 0) (wtimes 2) 2) (diff (wtimes 0) (wtimes 3) 3)
        (⟨0, 0, 0, 0⟩ : PState).x (⟨0, 0, 0, 0⟩ : PState).y).f < MAX_ERROR →
      positioningHandler ⟨0, 0, 0, 0⟩ wtimes =
        ⟨(solverRun (diff (wtimes 0) (wtimes 1) 1) (diff (wtimes 0) (wtimes 2) 2)
            (diff (wtimes 0) (wtimes 3) 3) (⟨0, 0, 0, 0⟩ : PState).x
            (⟨0, 0, 0, 0⟩ : PState).y).x,
         (solverRun (diff (wtimes 0) (wtimes 1) 1) (diff (wtimes 0) (wtimes 2) 2)
            (diff (wtimes 0) (wtimes 3) 3) (⟨0, 0, 0, 0⟩ : PState).x
            (⟨0, 0, 0, 0⟩ : PState).y).y,
         (solverRun (diff (wtimes 0) (wtimes 1) 1) (diff (wtimes 0) (wtimes 2) 2)
            (diff (wtimes 0) (wtimes 3) 3) (⟨0, 0, 0, 0⟩ : PState).x
            (⟨0, 0, 0, 0⟩ : PState).y).f, 1⟩) ∧
     (¬ fabsf (solverRun (diff (wtimes 0) (wtimes 1) 1)
        (diff (wtimes 0) (wtimes 2) 2) (diff (wtimes 0) (wtimes 3) 3)
        (⟨0, 0, 0, 0⟩ : PState).x (⟨0, 0, 0, 0⟩ : PState).y).f < MAX_ERROR →
      positioningHandler ⟨0, 0, 0, 0⟩ wtimes = ⟨0, 0, 0, 0⟩)) :=
  ⟨by decide, wtimes_plausible,
    claim_C1_acceptance ⟨0, 0, 0, 0⟩ wtimes _ (by decide) wtimes_plausible rfl⟩

/-- C2: any cycle rejected by the validity check, the plausibility check, or
the acceptance check leaves the published state (x, y, fxy and the new-data
flag) exactly as it was. -/
theorem claim_C2_rejection (st : PState) (time : Fin 4 → ℕ)
    (h : validReject time = true ∨ plausibilityReject time ∨
      ¬ fabsf (solverRun (diff (time 0) (time 1) 1) (diff (time 0) (time 2) 2)
        (diff (time 0) (time 3) 3) st.x st.y).f < MAX_ERROR) :
    positioningHandler st time = st := by
  unfold positioningHandler
  by_cases hv : validReject time = true
  · rw [if_pos hv]
  · rw [if_neg hv]
    by_cases hp : plausibilityReject time
    · rw [if_pos hp]
    · rw [if_neg hp]
      rcases h with h | h | h
      · exact absurd h hv
      · exact absurd h hp
      · unfold acceptStep
        rw [if_neg h]

/-- C2 witness: a cycle whose timestamps are all the zero sentinel changes
nothing. -/
theorem claim_C2_witness :
    validReject wzero = true ∧
    positioningHandler ⟨0, 0, 0, 0⟩ wzero = ⟨0, 0, 0, 0⟩ :=
  ⟨by decide, claim_C2_rejection ⟨0, 0, 0, 0⟩ wzero (Or.inl (by decide))⟩

/-- C3: for a capture set with no zero sentinel, the acquisition step aborts
the cycle exactly when some timestamp is below
`ULONG_MAX - CLOCK_FREQ` (the maximum representable value minus one second's
worth of ticks); every timestamp at or above that bound passes. -/
theorem claim_C3_staleness (time : Fin 4 → ℕ) (h : ∀ i, time i ≠ 0) :
    validReject time = true ↔
      ∃ i : Fin 4, time i < ULONG_MAX - CLOCK_FREQ := by
  unfold validReject
  simp only [Bool.or_eq_true, timeReject_iff]
  constructor
  · intro hv
    rcases hv with ((hv | hv) | hv) | hv <;> rcases hv with hv | hv
    · exact absurd hv (h 0)
    · exact ⟨0, hv⟩
    · exact absurd hv (h 1)
    · exact ⟨1, hv⟩
    · exact absurd hv (h 2)
    · exact ⟨2, hv⟩
    · exact absurd hv (h 3)
    · exact ⟨3, hv⟩
  · rintro ⟨i, hi⟩
    fin_cases i
    · exact Or.inl (Or.inl (Or.inl (Or.inr hi)))
    · exact Or.inl (Or.inl (Or.inr (Or.inr hi)))
    · exact Or.inl (Or.inr (Or.inr hi))
    · exact Or.inr (Or.inr hi)

/-- C3 witness: all-ones captures are nonzero yet stale, and the iff is
exercised there. -/
theorem claim_C3_witness :
    (∀ i : Fin 4, wstale i ≠ 0) ∧
    (validReject wstale = true ↔
      ∃ i : Fin 4, wstale i < ULONG_MAX - CLOCK_FREQ) :=
  ⟨by decide, claim_C3_staleness wstale (by decide)⟩

/-- C4: for indices 1..3 and timestamps passing the validity check, the
computed difference is exactly the signed tick delta minus i times the
inter-pulse spacing in ticks, scaled by WAVE_SPEED/CLOCK_FREQ. -/
theorem claim_C4_diff (t0 ti i : ℕ) (hv0 : timeReject t0 = false)
    (hb0 : t0 ≤ ULONG_MAX) (hvi : timeReject ti = false)
    (hbi : ti ≤ ULONG_MAX) (_hil : 1 ≤ i) (_hiu : i ≤ 3) :
    diff t0 ti i =
      (((t0 : ℤ) - (ti : ℤ) - (i : ℤ) * (interTicks : ℤ) : ℤ) : ℝ) *
        (WAVE_SPEED / (CLOCK_FREQ : ℝ)) := by
  unfold diff
  rw [diffTicks_exact t0 ti i (timeReject_false t0 hv0).2 hb0
    (timeReject_false ti hvi).2 hbi]

/-- C4 witness: evaluated at a fresh pair spaced exactly 100000 ticks. -/
theorem claim_C4_witness :
    timeReject 4294967295 = false ∧ 4294967295 ≤ ULONG_MAX ∧
    timeReject 4294867295 = false ∧ 4294867295 ≤ ULONG_MAX ∧
    diff 4294967295 4294867295 1 =
      ((((4294967295 : ℕ) : ℤ) - ((4294867295 : ℕ) : ℤ) -
          ((1 : ℕ) : ℤ) * (interTicks : ℤ) : ℤ) : ℝ) *
        (WAVE_SPEED / (CLOCK_FREQ : ℝ)) :=
  ⟨by decide, by decide, by decide, by decide,
    claim_C4_diff 4294967295 4294867295 1 (by decide) (by decide) (by decide)
      (by decide) (by decide) (by decide)⟩

/-- C5: for indices 1..3 and timestamps passing the validity check, the
tick-delta computation is exact (equals the mathematical value) and fits in
the signed 32-bit range, so no signed overflow or wrap modulo 2^32 affects
the result. -/
theorem claim_C5_no_overflow (t0 ti i : ℕ) (hv0 : timeReject t0 = false)
    (hb0 : t0 ≤ ULONG_MAX) (hvi : timeReject ti = false)
    (hbi : ti ≤ ULONG_MAX) (hil : 1 ≤ i) (hiu : i ≤ 3) :
    diffTicks t0 ti i = (t0 : ℤ) - (ti : ℤ) - (i : ℤ) * (interTicks : ℤ) ∧
    -(2147483648 : ℤ) ≤ diffTicks t0 ti i ∧
    diffTicks t0 ti i < (2147483648 : ℤ) := by
  obtain ⟨-, hlow0⟩ := timeReject_false t0 hv0
  obtain ⟨-, hlowi⟩ := timeReject_false ti hvi
  have heq := diffTicks_exact t0 ti i hlow0 hb0 hlowi hbi
  refine ⟨heq, ?_, ?_⟩
  · rw [heq]
    simp only [ULONG_MAX, CLOCK_FREQ, interTicks,
      TX_SPACING] at hlow0 hb0 hlowi hbi ⊢
    omega
  · rw [heq]
    simp only [ULONG_MAX, CLOCK_FREQ, interTicks,
      TX_SPACING] at hlow0 hb0 hlowi hbi ⊢
    omega

/-- C5 witness: evaluated at a fresh pair spaced exactly 100000 ticks. -/
theorem claim_C5_witness :
    timeReject 4294967295 = false ∧ 4294967295 ≤ ULONG_MAX ∧
    timeReject 4294867295 = false ∧ 4294867295 ≤ ULONG_MAX ∧
    (diffTicks 4294967295 4294867295 1 =
      ((4294967295 : ℕ) : ℤ) - ((4294867295 : ℕ) : ℤ) -
        ((1 : ℕ) : ℤ) * (interTicks : ℤ) ∧
     -(2147483648 : ℤ) ≤ diffTicks 4294967295 4294867295 1 ∧
     diffTicks 4294967295 4294867295 1 < (2147483648 : ℤ)) :=
  ⟨by decide, by decide, by decide, by decide,
    claim_C5_no_overflow 4294967295 4294867295 1 (by decide) (by decide)
      (by decide) (by decide) (by decide) (by decide)⟩

/-- C6: the solver loop terminates with at most MAX_ITERATIONS counted
iterations, and at exit either the cost has reached the convergence
threshold, or the iteration cap was hit, or the squared gradient magnitude
vanishes at the exit point. -/
theorem claim_C6_terminates (d1 d2 d3 sx sy : ℝ) :
    (solverRun d1 d2 d3 sx sy).iters ≤ MAX_ITERATIONS ∧
    (fabsf (solverRun d1 d2 d3 sx sy).f ≤ ERROR_THRESHOLD ∨
     (solverRun d1 d2 d3 sx sy).iters = MAX_ITERATIONS ∨
     gmsAt d1 d2 d3 (solverRun d1 d2 d3 sx sy).x
       (solverRun d1 d2 d3 sx sy).y = 0) := by
  unfold solverRun
  exact solverLoop_exit d1 d2 d3 MAX_ITERATIONS 0 sx sy (by omega)
    (by decide)

/-- C7: the update-step division is guarded: a zero squared gradient
magnitude stops the loop with no update, and routing both divisions through
a zero-refusing division never fails and computes the same results. -/
theorem claim_C7_div_guard (d1 d2 d3 : ℝ) :
    (∀ (fuel iters : ℕ) (cx cy : ℝ), gmsAt d1 d2 d3 cx cy = 0 →
      solverLoop d1 d2 d3 fuel iters cx cy =
        ⟨cx, cy, fxyAt d1 d2 d3 cx cy, iters⟩) ∧
    (∀ (fuel iters : ℕ) (cx cy : ℝ),
      solverLoopSafe d1 d2 d3 fuel iters cx cy =
        some (solverLoop d1 d2 d3 fuel iters cx cy)) :=
  ⟨fun fuel iters cx cy h => solverLoop_gms0 d1 d2 d3 fuel iters cx cy h,
   fun fuel iters cx cy => solverLoopSafe_eq d1 d2 d3 fuel iters cx cy⟩

/-- C7 witness: at the origin with zero measured differences the gradient is
exactly zero, the loop stops with no update, and the guarded loop agrees. -/
theorem claim_C7_witness :
    gmsAt 0 0 0 0 0 = 0 ∧
    solverLoop 0 0 0 100 0 0 0 = ⟨0, 0, fxyAt 0 0 0 0 0, 0⟩ ∧
    solverLoopSafe 0 0 0 100 0 0 0 = some (solverLoop 0 0 0 100 0 0 0) :=
  ⟨gmsAt_origin_zero,
   (claim_C7_div_guard 0 0 0).1 100 0 0 0 gmsAt_origin_zero,
   (claim_C7_div_guard 0 0 0).2 100 0 0 0⟩

/-- C8: a cycle passing the checks seeds the solver from the currently
published estimate (st.x, st.y), and every non-stationary iteration updates
each coordinate by subtracting DEL_FACTOR times the cost times the matching
partial derivative divided by the squared gradient magnitude. -/
theorem claim_C8_seeding (st : PState) (time : Fin 4 → ℕ)
    (h1 : validReject time = false) (h2 : ¬ plausibilityReject time) :
    positioningHandler st time =
      acceptStep st (solverRun (diff (time 0) (time 1) 1)
        (diff (time 0) (time 2) 2) (diff (time 0) (time 3) 3) st.x st.y) ∧
    (∀ (e1 e2 e3 : ℝ) (fuel iters : ℕ) (cx cy : ℝ),
      gmsAt e1 e2 e3 cx cy ≠ 0 →
      fabsf (fxyAt e1 e2 e3 cx cy) > ERROR_THRESHOLD →
      iters + 1 < MAX_ITERATIONS →
      solverLoop e1 e2 e3 (fuel + 1) iters cx cy =
        solverLoop e1 e2 e3 fuel (iters + 1)
          (cx - DEL_FACTOR * fxyAt e1 e2 e3 cx cy * dfxAt e1 e2 e3 cx cy /
            gmsAt e1 e2 e3 cx cy)
          (cy - DEL_FACTOR * fxyAt e1 e2 e3 cx cy * dfyAt e1 e2 e3 cx cy /
            gmsAt e1 e2 e3 cx cy)) := by
  constructor
  · unfold positioningHandler
    rw [if_neg (by simp [h1]), if_neg h2]
  · intro e1 e2 e3 fuel iters cx cy hgm hth hit
    rw [solverLoop_succ_cont e1 e2 e3 fuel iters cx cy hgm hth hit]
    rfl

/-- C8 witness: on a fresh, exactly-spaced capture set from the zero state,
the handler is the acceptance step applied to the solver seeded at the
published estimate. -/
theorem claim_C8_witness :
    validReject wtimes = false ∧ ¬ plausibilityReject wtimes ∧
    positioningHandler ⟨0, 0, 0, 0⟩ wtimes =
      acceptStep ⟨0, 0, 0, 0⟩ (solverRun (diff (wtimes 0) (wtimes 1) 1)
        (diff (wtimes 0) (wtimes 2) 2) (diff (wtimes 0) (wtimes 3) 3)
        (⟨0, 0, 0, 0⟩ : PState).x (⟨0, 0, 0, 0⟩ : PState).y) :=
  ⟨by decide, wtimes_plausible,
    (claim_C8_seeding ⟨0, 0, 0, 0⟩ wtimes (by decide) wtimes_plausible).1⟩

/-- C9: position_data_available returns the current flag (nonzero iff fresh
data is pending), clears it, and therefore a second immediate call always
returns zero. -/
theorem claim_C9_flag (st : PState) :
    (position_data_available st).1 = st.new_data ∧
    ((position_data_available st).2).new_data = 0 ∧
    (position_data_available ((position_data_available st).2)).1 = 0 :=
  ⟨rfl, rfl, rfl⟩

/-- C10: the loop body always runs at least once: when the seed cost is
already at or below the convergence threshold and the gradient there is
nonzero, the solver still recomputes the cost from the fresh measurements
and applies exactly one update step, exiting with iters = 1. -/
theorem claim_C10_do_while (d1 d2 d3 sx sy : ℝ)
    (hthr : fabsf (fxyAt d1 d2 d3 sx sy) ≤ ERROR_THRESHOLD)
    (hg : gmsAt d1 d2 d3 sx sy ≠ 0) :
    solverRun d1 d2 d3 sx sy =
      ⟨sx - DEL_FACTOR * fxyAt d1 d2 d3 sx sy * dfxAt d1 d2 d3 sx sy /
          gmsAt d1 d2 d3 sx sy,
       sy - DEL_FACTOR * fxyAt d1 d2 d3 sx sy * dfyAt d1 d2 d3 sx sy /
          gmsAt d1 d2 d3 sx sy,
       fxyAt d1 d2 d3 sx sy, 1⟩ := by
  unfold solverRun
  show solverLoop d1 d2 d3 (99 + 1) 0 sx sy = _
  rw [solverLoop_succ_stop d1 d2 d3 99 0 sx sy hg
    (fun hc => absurd hc.1 (not_lt.mpr hthr))]
  rfl

/-- C10 witness: at the origin seed with measured differences (0, 0, 1/20)
the seed cost 1/400 is already below the threshold, the gradient is nonzero,
and the loop still performs exactly one update step. -/
theorem claim_C10_witness :
    fabsf (fxyAt 0 0 (1/20) 0 0) ≤ ERROR_THRESHOLD ∧
    gmsAt 0 0 (1/20) 0 0 ≠ 0 ∧
    solverRun 0 0 (1/20) 0 0 =
      ⟨0 - DEL_FACTOR * fxyAt 0 0 (1/20) 0 0 * dfxAt 0 0 (1/20) 0 0 /
          gmsAt 0 0 (1/20) 0 0,
       0 - DEL_FACTOR * fxyAt 0 0 (1/20) 0 0 * dfyAt 0 0 (1/20) 0 0 /
          gmsAt 0 0 (1/20) 0 0,
       fxyAt 0 0 (1/20) 0 0, 1⟩ :=
  ⟨fxyAt_c10_small, gmsAt_c10_ne,
    claim_C10_do_while 0 0 (1/20) 0 0 fxyAt_c10_small gmsAt_c10_ne⟩

end UltraPos
